import Mathlib

/-!
Verification of the GeminiAutoPM standalone CLI bootstrap (`src/index.ts`).

The bootstrap parses a command line into a subcommand plus options, builds a
leveled logger, constructs one of two MCP servers (`PMServer`, `AgentsServer`),
awaits its asynchronous `start()`, and installs process-wide signal and
exception handlers.  The servers and the logger are external collaborators:
the bootstrap's observable behaviour is the sequence of calls it makes to
them, to `console.error`, and to `process.exit`.  We embed each command action
as a function from the parsed global options, the (unused) port option and the
outcome of the external server interaction to the list of such events, in the
exact order the source performs them.
-/

/-- Log levels of `utils/logger.js`, ordered `ERROR < WARN < INFO < DEBUG`
(DEBUG is most verbose). -/
inductive LogLevel
  | ERROR
  | WARN
  | INFO
  | DEBUG
deriving DecidableEq, Repr

/-- JavaScript `String.prototype.toLowerCase` restricted to the ASCII range
(the only range the four recognized level strings inhabit): lower-case every
character. -/
def toLowerCase (s : String) : String :=
  String.mk (s.data.map Char.toLower)

/-- `parseLogLevel` from `src/index.ts`: switch on the lower-cased string,
defaulting to `INFO`. -/
def parseLogLevel (level : String) : LogLevel :=
  match toLowerCase level with
  | "error" => LogLevel.ERROR
  | "warn" => LogLevel.WARN
  | "info" => LogLevel.INFO
  | "debug" => LogLevel.DEBUG
  | _ => LogLevel.INFO

/-- The two global options declared on the root `gemini-autopm` command. -/
structure GlobalOptions where
  logLevel : String
  enableContext7 : Bool
deriving DecidableEq, Repr

/-- Raw occurrence of the global options on a concrete command line:
the argument given to `--log-level` (if any) and whether the boolean flag
`--enable-context7` appeared. -/
structure RawGlobalFlags where
  logLevelArg : Option String
  enableContext7Flag : Bool
deriving DecidableEq, Repr

/-- Default declared for `--log-level` in `src/index.ts` line 34. -/
def logLevelDefault : String := "info"

/-- Default declared for `--enable-context7` in `src/index.ts` line 35. -/
def enableContext7Default : Bool := true

/-- Commander's resolution of the two global options: an absent option takes
its declared default; the boolean flag `--enable-context7` has no `<value>`
placeholder and no negation form, so its presence sets it to `true`. -/
def parseGlobalOptions (raw : RawGlobalFlags) : GlobalOptions :=
  { logLevel := raw.logLevelArg.getD logLevelDefault,
    enableContext7 :=
      if raw.enableContext7Flag then true else enableContext7Default }

/-- The configuration object passed to `PMServer` / `AgentsServer`. -/
structure ServerConfig where
  name : String
  version : String
  logLevel : LogLevel
  enableContext7 : Bool
deriving DecidableEq, Repr

/-- Which server class a construction event instantiates. -/
inductive ServerKind
  | pm
  | agents
deriving DecidableEq, Repr

/-- Observable events of a command action, in program order: writes to
`console.error`, logger construction, leveled logger calls (an error log
carries the attached underlying error), server construction, the awaited
`start()` call, and `process.exit`. -/
inductive Event
  | consoleError (msg : String)
  | createLogger (loggerName : String) (level : LogLevel)
  | logInfo (loggerName : String) (msg : String)
  | logError (loggerName : String) (msg : String) (err : String)
  | constructServer (kind : ServerKind) (cfg : ServerConfig)
  | startServer (kind : ServerKind)
  | processExit (code : Nat)
deriving DecidableEq, Repr

/-- Outcome of the external server interaction inside the `try` block:
the constructor throws, `start()` rejects, or `start()` resolves.  The
error payloads are the thrown/rejected values. -/
inductive StartOutcome
  | constructorThrows (err : String)
  | startRejects (err : String)
  | success
deriving DecidableEq, Repr

/-- The `pm` command action (`src/index.ts` lines 41-69).  `port` is the
parsed `--port` option, in scope but never read by the handler body. -/
def pmAction (g : GlobalOptions) (port : String) (o : StartOutcome) :
    List Event :=
  let lvl := parseLogLevel g.logLevel
  let cfg : ServerConfig :=
    { name := "autopm-pm", version := "1.0.0", logLevel := lvl,
      enableContext7 := g.enableContext7 }
  [Event.consoleError "CLI: Starting PM server command...",
   Event.createLogger "AutoPM-PM" lvl,
   Event.consoleError "CLI: Created logger",
   Event.logInfo "AutoPM-PM" "Starting Project Management MCP Server...",
   Event.consoleError "CLI: Creating PMServer..."] ++
  match o with
  | StartOutcome.constructorThrows err =>
      [Event.constructServer ServerKind.pm cfg,
       Event.logError "AutoPM-PM" "Failed to start PM server:" err,
       Event.processExit 1]
  | StartOutcome.startRejects err =>
      [Event.constructServer ServerKind.pm cfg,
       Event.consoleError "CLI: PMServer created successfully",
       Event.startServer ServerKind.pm,
       Event.logError "AutoPM-PM" "Failed to start PM server:" err,
       Event.processExit 1]
  | StartOutcome.success =>
      [Event.constructServer ServerKind.pm cfg,
       Event.consoleError "CLI: PMServer created successfully",
       Event.startServer ServerKind.pm,
       Event.logInfo "AutoPM-PM" "Project Management server started successfully"]

/-- The `agents` command action (`src/index.ts` lines 74-99). -/
def agentsAction (g : GlobalOptions) (port : String) (o : StartOutcome) :
    List Event :=
  let lvl := parseLogLevel g.logLevel
  let cfg : ServerConfig :=
    { name := "autopm-agents", version := "1.0.0", logLevel := lvl,
      enableContext7 := g.enableContext7 }
  [Event.createLogger "AutoPM-Agents" lvl,
   Event.logInfo "AutoPM-Agents" "Starting Agents MCP Server..."] ++
  match o with
  | StartOutcome.constructorThrows err =>
      [Event.constructServer ServerKind.agents cfg,
       Event.logError "AutoPM-Agents" "Failed to start Agents server:" err,
       Event.processExit 1]
  | StartOutcome.startRejects err =>
      [Event.constructServer ServerKind.agents cfg,
       Event.startServer ServerKind.agents,
       Event.logError "AutoPM-Agents" "Failed to start Agents server:" err,
       Event.processExit 1]
  | StartOutcome.success =>
      [Event.constructServer ServerKind.agents cfg,
       Event.startServer ServerKind.agents,
       Event.logInfo "AutoPM-Agents" "Agents server started successfully"]

/-- The `all` command action (`src/index.ts` lines 101-131): it constructs
and starts only the PM server.  `pmPort` and `agentsPort` are the parsed
`--pm-port` / `--agents-port` options, never read by the handler body. -/
def allAction (g : GlobalOptions) (pmPort agentsPort : String)
    (o : StartOutcome) : List Event :=
  let lvl := parseLogLevel g.logLevel
  let cfg : ServerConfig :=
    { name := "autopm-pm", version := "1.0.0", logLevel := lvl,
      enableContext7 := g.enableContext7 }
  [Event.createLogger "AutoPM-All" lvl,
   Event.logInfo "AutoPM-All" "Starting both PM and Agents MCP servers..."] ++
  match o with
  | StartOutcome.constructorThrows err =>
      [Event.constructServer ServerKind.pm cfg,
       Event.logError "AutoPM-All" "Failed to start servers:" err,
       Event.processExit 1]
  | StartOutcome.startRejects err =>
      [Event.constructServer ServerKind.pm cfg,
       Event.startServer ServerKind.pm,
       Event.logError "AutoPM-All" "Failed to start servers:" err,
       Event.processExit 1]
  | StartOutcome.success =>
      [Event.constructServer ServerKind.pm cfg,
       Event.startServer ServerKind.pm,
       Event.logInfo "AutoPM-All"
         "PM server started successfully (Agents tools available within PM server)"]

/-- The process signals handled at module scope. -/
inductive Signal
  | SIGINT
  | SIGTERM
deriving DecidableEq, Repr

/-- The `SIGINT` / `SIGTERM` handlers (`src/index.ts` lines 134-142):
log to `console.error` and exit with status 0. -/
def signalHandler (s : Signal) : List Event :=
  match s with
  | Signal.SIGINT =>
      [Event.consoleError "\nReceived SIGINT, shutting down gracefully...",
       Event.processExit 0]
  | Signal.SIGTERM =>
      [Event.consoleError "\nReceived SIGTERM, shutting down gracefully...",
       Event.processExit 0]

/-- The `uncaughtException` handler (`src/index.ts` lines 145-148). -/
def uncaughtExceptionHandler (err : String) : List Event :=
  [Event.consoleError ("Uncaught Exception: " ++ err),
   Event.processExit 1]

/-- The `unhandledRejection` handler (`src/index.ts` lines 150-153);
`promise` and `reason` are rendered into the message. -/
def unhandledRejectionHandler (promise reason : String) : List Event :=
  [Event.consoleError
     ("Unhandled Rejection at: " ++ promise ++ " reason: " ++ reason),
   Event.processExit 1]

/-- Is this event a server construction? -/
def isServerConstruction : Event → Bool
  | Event.constructServer _ _ => true
  | _ => false

/-- Is this event an awaited `start()` call? -/
def isServerStart : Event → Bool
  | Event.startServer _ => true
  | _ => false

/-- Is this event a `process.exit` call? -/
def isProcessExit : Event → Bool
  | Event.processExit _ => true
  | _ => false

/-- Is this event an informational logger call? -/
def isInfoLog : Event → Bool
  | Event.logInfo _ _ => true
  | _ => false

/-- Is this event a write to `console.error`? -/
def isConsoleError : Event → Bool
  | Event.consoleError _ => true
  | _ => false

/-- The servers a trace constructs, with the class and configuration of each. -/
def constructedServers (t : List Event) : List (ServerKind × ServerConfig) :=
  t.filterMap fun e =>
    match e with
    | Event.constructServer k c => some (k, c)
    | _ => none

/-- Does `hay` contain `needle` as a contiguous sublist? -/
def charListHasSub (needle : List Char) : List Char → Bool
  | [] => needle.isEmpty
  | c :: cs => needle.isPrefixOf (c :: cs) || charListHasSub needle cs

/-- Does the string contain the text "started successfully"? -/
def mentionsStartedOk (msg : String) : Bool :=
  charListHasSub "started successfully".data msg.data

/-- An INFO-level logger call whose message contains "started successfully". -/
def isStartedOkInfo : Event → Bool
  | Event.logInfo _ msg => mentionsStartedOk msg
  | _ => false

/-- C1: for every parsed invocation and every outcome of the external server
interaction, the `pm` action invokes exactly one server constructor, a
`PMServer` named `autopm-pm`; the `agents` action invokes exactly one, an
`AgentsServer` named `autopm-agents`; the `all` action invokes exactly one, a
`PMServer` named `autopm-pm`, and never a second one. -/
theorem each_command_constructs_exactly_one_server
    (g : GlobalOptions) (p pp ap : String) (o : StartOutcome) :
    (constructedServers (pmAction g p o)).map (fun x => (x.1, x.2.name)) =
      [(ServerKind.pm, "autopm-pm")] ∧
    (constructedServers (agentsAction g p o)).map (fun x => (x.1, x.2.name)) =
      [(ServerKind.agents, "autopm-agents")] ∧
    (constructedServers (allAction g pp ap o)).map (fun x => (x.1, x.2.name)) =
      [(ServerKind.pm, "autopm-pm")] := by
  cases o <;> exact ⟨rfl, rfl, rfl⟩

/-- C9: the `pm` and `agents` action handlers never read the parsed `--port`
option, so two invocations differing only in the port value produce identical
event traces (hence identical server configurations and log output). -/
theorem port_option_has_no_observable_effect
    (g : GlobalOptions) (p1 p2 : String) (o : StartOutcome) :
    pmAction g p1 o = pmAction g p2 o ∧
    agentsAction g p1 o = agentsAction g p2 o :=
  ⟨rfl, rfl⟩

/-- The kind of an event with the logger name, the message text and the
configuration payload erased; two traces with the same image under this map
differ at most in logger names, message texts and configuration payloads. -/
inductive EventShape
  | consoleErrLine
  | loggerCreated
  | infoLine
  | errorLine
  | construct
  | start
  | exited (code : Nat)
deriving DecidableEq, Repr

/-- Erase names, texts and payloads from an event. -/
def shape : Event → EventShape
  | Event.consoleError _ => EventShape.consoleErrLine
  | Event.createLogger _ _ => EventShape.loggerCreated
  | Event.logInfo _ _ => EventShape.infoLine
  | Event.logError _ _ _ => EventShape.errorLine
  | Event.constructServer _ _ => EventShape.construct
  | Event.startServer _ => EventShape.start
  | Event.processExit c => EventShape.exited c

/-- C10 counterexample: with the default global options and a successful
start, the `pm` and `all` traces do not agree even after erasing logger
names and message texts — `pm` emits four `console.error` diagnostic lines
that `all` never emits, so the two commands' observable behaviour differs in
more than logger name and message text. -/
theorem pm_all_shapes_differ_on_default_invocation :
    ((pmAction { logLevel := "info", enableContext7 := true } "8080"
        StartOutcome.success).map shape) ≠
    ((allAction { logLevel := "info", enableContext7 := true } "8080" "8081"
        StartOutcome.success).map shape) := by
  decide

/-- C10 amended: for every setting of the global options and every outcome,
`all` constructs a server with exactly the same kind and configuration as
`pm`, and once the `console.error` diagnostic lines (which `pm` alone emits)
are set aside, the two traces agree up to logger names and message texts. -/
theorem all_matches_pm_configuration
    (g : GlobalOptions) (p pp ap : String) (o : StartOutcome) :
    constructedServers (allAction g pp ap o) =
      constructedServers (pmAction g p o) ∧
    ((allAction g pp ap o).filter (fun e => !(isConsoleError e))).map shape =
      ((pmAction g p o).filter (fun e => !(isConsoleError e))).map shape := by
  cases o <;> exact ⟨rfl, rfl⟩

/-- C4: for the invocation `pm --log-level debug --port 9090` the log level
resolves to DEBUG, the server is constructed with configuration
`{name := "autopm-pm", version := "1.0.0", logLevel := DEBUG,
enableContext7 := true}`, and on a successful start the trace contains no
`process.exit` call and exactly two informational logger lines. -/
theorem pm_debug_port_scenario :
    parseLogLevel "debug" = LogLevel.DEBUG ∧
    Event.constructServer ServerKind.pm
        { name := "autopm-pm", version := "1.0.0",
          logLevel := LogLevel.DEBUG, enableContext7 := true } ∈
      pmAction
        (parseGlobalOptions
          { logLevelArg := some "debug", enableContext7Flag := false })
        "9090" StartOutcome.success ∧
    (pmAction
        (parseGlobalOptions
          { logLevelArg := some "debug", enableContext7Flag := false })
        "9090" StartOutcome.success).countP isInfoLog = 2 ∧
    (pmAction
        (parseGlobalOptions
          { logLevelArg := some "debug", enableContext7Flag := false })
        "9090" StartOutcome.success).all
      (fun e => !(isProcessExit e)) = true := by
  refine ⟨by decide, ?_, by decide, by decide⟩
  decide

/-- A trace ends in a fatal startup failure: the named logger received an
ERROR-level entry with the underlying error attached, the final event is
`process.exit(1)`, and neither the constructor nor `start()` was retried. -/
def failsFatally (t : List Event) (loggerName msg err : String) : Prop :=
  Event.logError loggerName msg err ∈ t ∧
  t.getLast? = some (Event.processExit 1) ∧
  t.countP isServerStart ≤ 1 ∧
  t.countP isServerConstruction ≤ 1

/-- C2: in each of the three command actions, whether the server constructor
throws or `start()` rejects, the catch block at the command-action boundary
logs one ERROR-level entry carrying the error and the process exits with
status 1 as the last event, with no retry of construction or start. -/
theorem startup_failure_logs_error_and_exits_one
    (g : GlobalOptions) (p pp ap err : String) :
    failsFatally (pmAction g p (StartOutcome.constructorThrows err))
      "AutoPM-PM" "Failed to start PM server:" err ∧
    failsFatally (pmAction g p (StartOutcome.startRejects err))
      "AutoPM-PM" "Failed to start PM server:" err ∧
    failsFatally (agentsAction g p (StartOutcome.constructorThrows err))
      "AutoPM-Agents" "Failed to start Agents server:" err ∧
    failsFatally (agentsAction g p (StartOutcome.startRejects err))
      "AutoPM-Agents" "Failed to start Agents server:" err ∧
    failsFatally (allAction g pp ap (StartOutcome.constructorThrows err))
      "AutoPM-All" "Failed to start servers:" err ∧
    failsFatally (allAction g pp ap (StartOutcome.startRejects err))
      "AutoPM-All" "Failed to start servers:" err := by
  refine ⟨?_, ?_, ?_, ?_, ?_, ?_⟩ <;>
    refine ⟨by simp [pmAction, agentsAction, allAction], rfl, ?_, ?_⟩ <;>
    simp [pmAction, agentsAction, allAction,
      isServerStart, isServerConstruction]

/-- A trace reports a successful start and never exits: some INFO-level
logger entry contains "started successfully", and no `process.exit` occurs. -/
def startedOkNoExit (t : List Event) : Prop :=
  t.any isStartedOkInfo = true ∧
  t.all (fun e => !(isProcessExit e)) = true

/-- C5: in each of the three command actions, when `start()` resolves the
handler logs an informational message containing "started successfully" and
no `process.exit` call occurs on the success path. -/
theorem successful_start_logs_and_keeps_running
    (g : GlobalOptions) (p pp ap : String) :
    startedOkNoExit (pmAction g p StartOutcome.success) ∧
    startedOkNoExit (agentsAction g p StartOutcome.success) ∧
    startedOkNoExit (allAction g pp ap StartOutcome.success) := by
  refine ⟨⟨?_, ?_⟩, ⟨?_, ?_⟩, ⟨?_, ?_⟩⟩ <;> rfl

/-- C3: log-level resolution maps each of the four recognized strings,
compared case-insensitively, to the corresponding level, and maps every
other string to INFO; it is total and never fails. -/
theorem parseLogLevel_resolution (s : String) :
    (toLowerCase s = "error" → parseLogLevel s = LogLevel.ERROR) ∧
    (toLowerCase s = "warn" → parseLogLevel s = LogLevel.WARN) ∧
    (toLowerCase s = "info" → parseLogLevel s = LogLevel.INFO) ∧
    (toLowerCase s = "debug" → parseLogLevel s = LogLevel.DEBUG) ∧
    (toLowerCase s ≠ "error" → toLowerCase s ≠ "warn" →
      toLowerCase s ≠ "info" → toLowerCase s ≠ "debug" →
      parseLogLevel s = LogLevel.INFO) := by
  unfold parseLogLevel
  refine ⟨fun h => by rw [h]; decide, fun h => by rw [h]; decide,
    fun h => by rw [h]; decide, fun h => by rw [h]; decide,
    fun h1 h2 h3 h4 => ?_⟩
  split <;> simp_all

/-- Witness for C3: the mixed-case string "WaRn" resolves to WARN. -/
theorem parseLogLevel_resolution_witness :
    parseLogLevel "WaRn" = LogLevel.WARN :=
  (parseLogLevel_resolution "WaRn").2.1 (by decide)

/-- C6: each termination-signal handler logs one message to `console.error`
and immediately exits with status 0; its trace contains no server
construction and no `start()` call, so no startup logic is re-invoked and no
shutdown hook is awaited. -/
theorem termination_signal_exits_zero_without_restart :
    signalHandler Signal.SIGINT =
      [Event.consoleError "\nReceived SIGINT, shutting down gracefully...",
       Event.processExit 0] ∧
    signalHandler Signal.SIGTERM =
      [Event.consoleError "\nReceived SIGTERM, shutting down gracefully...",
       Event.processExit 0] ∧
    (signalHandler Signal.SIGINT).all
      (fun e => !(isServerConstruction e) && !(isServerStart e)) = true ∧
    (signalHandler Signal.SIGTERM).all
      (fun e => !(isServerConstruction e) && !(isServerStart e)) = true :=
  ⟨rfl, rfl, rfl, rfl⟩

/-- C7: for every error and every rejection reason, regardless of origin,
the global `uncaughtException` and `unhandledRejection` handlers log the
error to `console.error` and exit with status 1 as the last event. -/
theorem uncaught_error_handlers_exit_one (err promise reason : String) :
    uncaughtExceptionHandler err =
      [Event.consoleError ("Uncaught Exception: " ++ err),
       Event.processExit 1] ∧
    (uncaughtExceptionHandler err).getLast? =
      some (Event.processExit 1) ∧
    unhandledRejectionHandler promise reason =
      [Event.consoleError
         ("Unhandled Rejection at: " ++ promise ++ " reason: " ++ reason),
       Event.processExit 1] ∧
    (unhandledRejectionHandler promise reason).getLast? =
      some (Event.processExit 1) :=
  ⟨rfl, rfl, rfl, rfl⟩

/-- C8: `--enable-context7` is a boolean flag whose declared default is
`true` and which has no negating form, so every parsed command line resolves
it to `true`; consequently every server any of the three actions constructs
has `enableContext7 = true`. -/
theorem enableContext7_is_always_true
    (raw : RawGlobalFlags) (p pp ap : String) (o : StartOutcome) :
    (parseGlobalOptions raw).enableContext7 = true ∧
    (constructedServers (pmAction (parseGlobalOptions raw) p o)).all
      (fun x => x.2.enableContext7) = true ∧
    (constructedServers (agentsAction (parseGlobalOptions raw) p o)).all
      (fun x => x.2.enableContext7) = true ∧
    (constructedServers (allAction (parseGlobalOptions raw) pp ap o)).all
      (fun x => x.2.enableContext7) = true := by
  have h : (parseGlobalOptions raw).enableContext7 = true := by
    simp [parseGlobalOptions, enableContext7Default]
  refine ⟨h, ?_, ?_, ?_⟩ <;> cases o <;>
    simp [pmAction, agentsAction, allAction, constructedServers, h]
